import Mathlib

/-!
# Notification Hub namespace resource: embedding and verified properties

A shallow embedding of `internal/services/notificationhub/notification_hub_namespace_resource.go`.
Calls to the remote API are modelled by their answers: every function that performs a call
takes the answer as an argument and records the call in a trace.
-/

namespace NotificationHub

/-! ## Data model -/

/-- Go error values, carried by their message text (the text the verbs %s and %+v print). -/
abbrev GoError := String

/-- The part of `http.Response` the resource reads. -/
structure HttpResponse where
  StatusCode : Int
  deriving DecidableEq, Repr

/-- `namespaces.NamespaceId`, built by `NewNamespaceID(subscriptionId, resourceGroupName, name)`. -/
structure NamespaceId where
  SubscriptionId : String
  ResourceGroupName : String
  NamespaceName : String
  deriving DecidableEq, Repr

/-- `namespaces.Sku`. -/
structure Sku where
  Name : String
  deriving DecidableEq, Repr

/-- `namespaces.NamespaceProperties`, the fields the resource reads or writes (all pointers). -/
structure NamespaceProperties where
  NamespaceType : Option String
  Enabled : Option Bool
  ServiceBusEndpoint : Option String
  deriving DecidableEq, Repr

/-- `namespaces.NamespaceResource`. -/
structure NamespaceResource where
  Location : String
  Sku : Sku
  Properties : Option NamespaceProperties
  Tags : Option (List (String × String))
  deriving DecidableEq, Repr

/-- `namespaces.GetOperationResponse`: the raw HTTP response and the decoded model, both nilable. -/
structure GetOperationResponse where
  HttpResponse : Option HttpResponse
  Model : Option NamespaceResource
  deriving DecidableEq, Repr

/-- The pair `(resp, err)` returned by one call of `client.Get`. -/
structure GetResult where
  resp : GetOperationResponse
  err : Option GoError
  deriving DecidableEq, Repr

/-- Helpers of the SDK and of the provider that the resource calls and whose bodies are not part
of the resource file; they are parameters of the embedding. -/
structure Helpers where
  /-- The method `String()` of the identifier, printed by the verb %s. -/
  idString : NamespaceId → String
  /-- The method `ID()` of the identifier. -/
  idID : NamespaceId → String
  /-- The function `namespaces.ParseNamespaceID`. -/
  ParseNamespaceID : String → Except GoError NamespaceId
  /-- The function `location.Normalize` (and `location.NormalizeNilable` on a non-nil pointer). -/
  Normalize : String → String
  /-- The function `tf.ImportAsExistsError resourceName id`. -/
  ImportAsExistsError : String → String → GoError
  /-- The function `tags.Expand`, from the configured map to the pointer sent to the API. -/
  tagsExpand : List (String × String) → Option (List (String × String))
  /-- The function `tags.Flatten`, from the pointer in the API model to the map kept in state. -/
  tagsFlatten : Option (List (String × String)) → List (String × String)

/-! ## Decimal rendering -/

/-- Digits of `n` in base ten, most significant first, pushed in front of `ds`. -/
def digitsCore : Nat → Nat → List Char → List Char
  | 0, _, ds => ds
  | fuel + 1, n, ds =>
    if n / 10 = 0 then Nat.digitChar (n % 10) :: ds
    else digitsCore fuel (n / 10) (Nat.digitChar (n % 10) :: ds)

/-- The function `strconv.Itoa`: the decimal rendering of a Go `int`. -/
def Itoa : Int → String
  | Int.ofNat n => String.mk (digitsCore (n + 1) n [])
  | Int.negSucc n => String.mk ('-' :: digitsCore (n + 2) (n + 1) [])

/-! ## Response classification -/

/-- Modelled from the spec: `response.WasNotFound` of the go-azure-helpers package, whose body is
not part of the resource file. A response is classified as not-found when it is present and its
status code is 404. -/
def WasNotFound (resp : Option HttpResponse) : Bool :=
  match resp with
  | some r => r.StatusCode == 404
  | none => false

/-! ## The status probe -/

/-- The triple `(interface{}, string, error)` returned by a `pluginsdk.StateRefreshFunc`. -/
structure RefreshResult where
  result : Option GetOperationResponse
  state : String
  err : Option GoError
  deriving DecidableEq, Repr

/-- The closure returned by `notificationHubNamespaceStateRefreshFunc(ctx, client, id)`, as a
function of the answer `get` of its call `client.Get(ctx, id)`. -/
def notificationHubNamespaceStateRefreshFunc (hp : Helpers) (id : NamespaceId)
    (get : GetResult) : RefreshResult :=
  let resp := get.resp
  let statusCode :=
    match resp.HttpResponse with
    | some r => Itoa r.StatusCode
    | none => "dropped connection"
  match get.err with
  | some err =>
    if WasNotFound resp.HttpResponse then
      { result := none, state := statusCode, err := none }
    else
      { result := none, state := "", err := some ("retrieving " ++ hp.idString id ++ ": " ++ err) }
  | none => { result := some resp, state := statusCode, err := none }

/-- A text `msg` embeds a text `part` when `part` occurs in it as a contiguous run of characters. -/
def embeds (msg part : String) : Prop := part.data <:+: msg.data

instance (msg part : String) : Decidable (embeds msg part) := by
  unfold embeds; infer_instance


/-! ## Local state -/

/-- Values handed to `d.Set`; pointer arguments keep their nil case. -/
inductive Value
  | str (s : String)
  | bool (b : Bool)
  | strPtr (s : Option String)
  | boolPtr (b : Option Bool)
  | tags (t : List (String × String))
  deriving DecidableEq, Repr

/-- The part of `pluginsdk.ResourceData` the resource touches: the stored ID, the attributes, and
the create timeout of the `timeouts` block when the configuration has one (nanoseconds). -/
structure ResourceData where
  id : String
  attrs : List (String × Value)
  createTimeout : Option Nat
  deriving DecidableEq, Repr

/-- The expression `d.Get(key).(string)`; an unset attribute reads as the zero value. -/
def ResourceData.GetString (d : ResourceData) (key : String) : String :=
  match d.attrs.lookup key with
  | some (Value.str s) => s
  | some (Value.strPtr (some s)) => s
  | _ => ""

/-- The expression `d.Get(key).(bool)`. -/
def ResourceData.GetBool (d : ResourceData) (key : String) : Bool :=
  match d.attrs.lookup key with
  | some (Value.bool b) => b
  | some (Value.boolPtr (some b)) => b
  | _ => false

/-- The expression `d.Get("tags").(map[string]interface{})`. -/
def ResourceData.GetTags (d : ResourceData) : List (String × String) :=
  match d.attrs.lookup "tags" with
  | some (Value.tags t) => t
  | _ => []

/-- The call `d.Set(key, v)`: the attribute `key` now holds `v`, the others are untouched. -/
def ResourceData.Set (d : ResourceData) (key : String) (v : Value) : ResourceData :=
  { d with attrs := (key, v) :: d.attrs.filter (fun kv => kv.1 != key) }

/-- The call `d.SetId(id)`. -/
def ResourceData.SetId (d : ResourceData) (id : String) : ResourceData :=
  { d with id := id }

/-! ## Durations, timeouts and schema -/

/-- The constant `time.Second`, in nanoseconds. -/
def Second : Nat := 1000000000

/-- The constant `time.Minute`. -/
def Minute : Nat := 60 * Second

/-- `pluginsdk.ResourceTimeout`, each entry a default duration. -/
structure ResourceTimeout where
  Create : Nat
  Read : Nat
  Update : Nat
  Delete : Nat
  deriving DecidableEq, Repr

/-- The `Timeouts` entry of `resourceNotificationHubNamespace`. -/
def resourceNotificationHubNamespaceTimeouts : ResourceTimeout :=
  { Create := 30 * Minute, Read := 5 * Minute, Update := 30 * Minute, Delete := 30 * Minute }

/-- The keys of the `Schema` map of `resourceNotificationHubNamespace`, in source order. -/
def resourceNotificationHubNamespaceSchema : List String :=
  ["name", "resource_group_name", "location", "sku_name", "enabled", "namespace_type", "tags",
   "servicebus_endpoint"]

/-- The call `d.Timeout(pluginsdk.TimeoutCreate)`: the configured value, else the default. -/
def ResourceData.TimeoutCreate (d : ResourceData) : Nat :=
  d.createTimeout.getD resourceNotificationHubNamespaceTimeouts.Create

/-- `pluginsdk.StateChangeConf`, the fields the resource sets. -/
structure StateChangeConf where
  Pending : List String
  Target : List String
  Refresh : GetResult → RefreshResult
  MinTimeout : Nat
  ContinuousTargetOccurence : Nat
  Timeout : Nat

/-- The `stateConf` that `resourceNotificationHubNamespaceCreate` builds, with its `Timeout`
already assigned. -/
def createStateConf (hp : Helpers) (id : NamespaceId) (timeout : Nat) : StateChangeConf :=
  { Pending := ["404"]
    Target := ["200"]
    Refresh := notificationHubNamespaceStateRefreshFunc hp id
    MinTimeout := 15 * Second
    ContinuousTargetOccurence := 10
    Timeout := timeout }

/-! ## Create and Read -/

/-- Calls made on the SDK client and on the wait helper, in the order they are made. -/
inductive ApiCall
  | Get (id : NamespaceId)
  | CreateOrUpdate (id : NamespaceId) (parameters : NamespaceResource)
  | WaitForStateContext (conf : StateChangeConf)

/-- Whether a call changes the remote resource. -/
def ApiCall.isMutating : ApiCall → Bool
  | ApiCall.CreateOrUpdate _ _ => true
  | _ => false

/-- Whether a call starts the wait. -/
def ApiCall.isWait : ApiCall → Bool
  | ApiCall.WaitForStateContext _ => true
  | _ => false

/-- What a lifecycle function leaves behind: its returned error, the local state, and the calls
it made. -/
structure Outcome where
  err : Option GoError
  d : ResourceData
  calls : List ApiCall

/-- The function `resourceNotificationHubNamespaceRead`; `get` is the answer of `client.Get`. -/
def resourceNotificationHubNamespaceRead (hp : Helpers) (get : GetResult)
    (d : ResourceData) : Outcome :=
  match hp.ParseNamespaceID d.id with
  | Except.error err => { err := some err, d := d, calls := [] }
  | Except.ok id =>
    let resp := get.resp
    match get.err with
    | some err =>
      if WasNotFound resp.HttpResponse then
        { err := none, d := d.SetId "", calls := [ApiCall.Get id] }
      else
        { err := some ("retrieving " ++ hp.idString id ++ ": " ++ err), d := d,
          calls := [ApiCall.Get id] }
    | none =>
      let d1 := d.Set "name" (Value.str id.NamespaceName)
      let d2 := d1.Set "resource_group_name" (Value.str id.ResourceGroupName)
      match resp.Model with
      | some model =>
        let d3 := d2.Set "location" (Value.str (hp.Normalize model.Location))
        let d4 := d3.Set "sku_name" (Value.str model.Sku.Name)
        let d5 :=
          match model.Properties with
          | some props =>
            (d4.Set "enabled" (Value.boolPtr props.Enabled)).Set "servicebus_endpoint"
              (Value.strPtr props.ServiceBusEndpoint)
          | none => d4
        { err := none, d := d5.Set "tags" (Value.tags (hp.tagsFlatten model.Tags)),
          calls := [ApiCall.Get id] }
      | none => { err := none, d := d2, calls := [ApiCall.Get id] }

/-- What `stateConf.WaitForStateContext(ctx)` hands back to Create is its error alone; `lastState`
is the status the last call of `Refresh` reported during the wait, which Create never receives. -/
structure WaitAnswer where
  err : Option GoError
  lastState : String
  deriving DecidableEq, Repr

/-- The answers of the environment to the calls `resourceNotificationHubNamespaceCreate` makes. -/
structure CreateAnswers where
  /-- Answer of the existence check `client.Get`. -/
  existing : GetResult
  /-- Error of `client.CreateOrUpdate`. -/
  createOrUpdate : Option GoError
  /-- Answer of `stateConf.WaitForStateContext`. -/
  wait : WaitAnswer
  /-- Answer of the `client.Get` of the final Read. -/
  read : GetResult
  deriving DecidableEq, Repr

/-- The function `resourceNotificationHubNamespaceCreate`. -/
def resourceNotificationHubNamespaceCreate (hp : Helpers) (subscriptionId : String)
    (env : CreateAnswers) (d : ResourceData) : Outcome :=
  let id : NamespaceId :=
    { SubscriptionId := subscriptionId
      ResourceGroupName := d.GetString "resource_group_name"
      NamespaceName := d.GetString "name" }
  let existing := env.existing.resp
  let checked : Option GoError :=
    match env.existing.err with
    | some err =>
      if !WasNotFound existing.HttpResponse then
        some ("checking for presence of existing " ++ hp.idString id ++ ": " ++ err)
      else none
    | none => none
  match checked with
  | some e => { err := some e, d := d, calls := [ApiCall.Get id] }
  | none =>
    if !WasNotFound existing.HttpResponse then
      { err := some (hp.ImportAsExistsError "azurerm_notification_hub_namespace" (hp.idID id)),
        d := d, calls := [ApiCall.Get id] }
    else
      let parameters : NamespaceResource :=
        { Location := hp.Normalize (d.GetString "location")
          Sku := { Name := d.GetString "sku_name" }
          Properties := some
            { NamespaceType := some (d.GetString "namespace_type")
              Enabled := some (d.GetBool "enabled")
              ServiceBusEndpoint := none }
          Tags := hp.tagsExpand d.GetTags }
      match env.createOrUpdate with
      | some err =>
        { err := some ("creating " ++ hp.idString id ++ ": " ++ err), d := d,
          calls := [ApiCall.Get id, ApiCall.CreateOrUpdate id parameters] }
      | none =>
        let stateConf := createStateConf hp id d.TimeoutCreate
        match env.wait.err with
        | some err =>
          { err := some ("waiting for " ++ hp.idString id ++ "s to finish replicating: " ++ err),
            d := d,
            calls := [ApiCall.Get id, ApiCall.CreateOrUpdate id parameters,
              ApiCall.WaitForStateContext stateConf] }
        | none =>
          let r := resourceNotificationHubNamespaceRead hp env.read (d.SetId (hp.idID id))
          { err := r.err, d := r.d,
            calls := [ApiCall.Get id, ApiCall.CreateOrUpdate id parameters,
              ApiCall.WaitForStateContext stateConf] ++ r.calls }

/-! ## The reconciliation loop -/

/-- Modelled from the spec: the body of `WaitForStateContext` is not part of the resource file.
An ObservedStatus is an opaque classification value, compared only for set membership. -/
abbrev ObservedStatus := String

/-- Modelled from the spec: the PollPolicy of the data model of the reconciler, whose code is
missing. Durations are in nanoseconds. -/
structure PollPolicy where
  pendingStatuses : List ObservedStatus
  targetStatuses : List ObservedStatus
  minInterval : Nat
  requiredConsecutiveTargetHits : Nat
  timeout : Nat
  deriving DecidableEq, Repr

/-- Modelled from the spec: what one call of a StatusProbe returns, the sum type
Ok(status), NotFound, Err(cause); the reconciler that consumes it is missing from the sources. -/
inductive ProbeResult
  | Ok (status : ObservedStatus)
  | NotFound
  | Err (cause : GoError)
  deriving DecidableEq, Repr

/-- Modelled from the spec: the causes of a Failed outcome (error taxonomy of the reconciler,
whose code is missing). -/
inductive FailureCause
  | TransportError (cause : GoError)
  | UnexpectedStatus (status : ObservedStatus)
  | Cancelled
  deriving DecidableEq, Repr

/-- Modelled from the spec: the ReconciliationOutcome of the missing reconciler. -/
inductive ReconciliationOutcome
  | Succeeded (finalObservation : ObservedStatus)
  | TimedOut
  | Failed (cause : FailureCause)
  deriving DecidableEq, Repr

/-- Modelled from the spec: one probe invocation as the missing reconciler sees it, what it
returned and how long it took (a slow probe moves the clock, not the deadline). -/
structure ProbeCall where
  result : ProbeResult
  elapsed : Nat
  deriving DecidableEq, Repr

/-- Modelled from the spec: the end of one `reconcile` call of the missing reconciler, its
terminal outcome together with the number of probe invocations made. -/
structure Reconciliation where
  outcome : ReconciliationOutcome
  probes : Nat
  deriving DecidableEq, Repr

/-- Modelled from the spec: what step (c) of the missing reconciler decides after one probe, a
terminal outcome or another round with the new value of the counter. -/
inductive Verdict
  | stop (outcome : ReconciliationOutcome)
  | again (consecutiveHits : Nat)
  deriving DecidableEq, Repr

/-- Modelled from the spec: steps (b) and (c) of the algorithm of the missing reconciler. A
not-found probe is a synthetic pending observation, any other probe error is fatal; a target
status increments the counter and succeeds once it reaches the required hits, a pending status
resets the counter, any other status is fatal. -/
def classify (policy : PollPolicy) (consecutiveHits : Nat) : ProbeResult → Verdict
  | ProbeResult.NotFound => Verdict.again 0
  | ProbeResult.Err cause =>
    Verdict.stop (ReconciliationOutcome.Failed (FailureCause.TransportError cause))
  | ProbeResult.Ok status =>
    if status ∈ policy.targetStatuses then
      if policy.requiredConsecutiveTargetHits ≤ consecutiveHits + 1 then
        Verdict.stop (ReconciliationOutcome.Succeeded status)
      else Verdict.again (consecutiveHits + 1)
    else if status ∈ policy.pendingStatuses then Verdict.again 0
    else Verdict.stop (ReconciliationOutcome.Failed (FailureCause.UnexpectedStatus status))

/-- Modelled from the spec: the cancellable sleep of the missing reconciler. Whether the
cancellation signal, raised at `cancelAt` if ever, fires before the time `wake` at which the
inter-probe sleep would end. -/
def cancelledBefore (cancelAt : Option Nat) (wake : Nat) : Bool :=
  match cancelAt with
  | some c => decide (c < wake)
  | none => false

/-- Modelled from the spec: step 3 of the algorithm of the missing reconciler, with the clock
explicit. `probe k` is the invocation number `k`; `now` advances by the time the probe took and
by `minInterval` for the sleep. The loop is cut after `fuel` rounds (`none`). -/
def reconcileLoop (policy : PollPolicy) (probe : Nat → ProbeCall) (cancelAt : Option Nat)
    (deadline : Nat) : Nat → Nat → Nat → Nat → Option Reconciliation
  | 0, _, _, _ => none
  | fuel + 1, now, consecutiveHits, k =>
    if deadline ≤ now then some { outcome := ReconciliationOutcome.TimedOut, probes := k }
    else
      match classify policy consecutiveHits (probe k).result with
      | Verdict.stop outcome => some { outcome := outcome, probes := k + 1 }
      | Verdict.again hits =>
        if cancelledBefore cancelAt (now + (probe k).elapsed + policy.minInterval) then
          some { outcome := ReconciliationOutcome.Failed FailureCause.Cancelled, probes := k + 1 }
        else
          reconcileLoop policy probe cancelAt deadline fuel
            (now + (probe k).elapsed + policy.minInterval) hits (k + 1)

/-- Modelled from the spec: `reconcile` of the missing reconciler, entered at time `start`: the
deadline is `start + timeout`, the counter starts at zero. With a positive `minInterval` the clock
gains at least one unit per round, so `timeout + 1` rounds always reach the deadline. -/
def reconcile (policy : PollPolicy) (probe : Nat → ProbeCall) (cancelAt : Option Nat)
    (start : Nat) : Option Reconciliation :=
  reconcileLoop policy probe cancelAt (start + policy.timeout) (policy.timeout + 1) start 0 0

/-- The PollPolicy a `StateChangeConf` stands for: Pending, Target, MinTimeout,
ContinuousTargetOccurence and Timeout are pendingStatuses, targetStatuses, minInterval,
requiredConsecutiveTargetHits and timeout. -/
def StateChangeConf.toPollPolicy (conf : StateChangeConf) : PollPolicy :=
  { pendingStatuses := conf.Pending
    targetStatuses := conf.Target
    minInterval := conf.MinTimeout
    requiredConsecutiveTargetHits := conf.ContinuousTargetOccurence
    timeout := conf.Timeout }

/-- The three-way reading of a refresh triple: an error is Err, a nil result without error is
NotFound, a result with its status is Ok. -/
def RefreshResult.toProbeResult (r : RefreshResult) : ProbeResult :=
  match r.err with
  | some cause => ProbeResult.Err cause
  | none =>
    match r.result with
    | none => ProbeResult.NotFound
    | some _ => ProbeResult.Ok r.state

/-- The probe of a `StateChangeConf` along a run: call number `k` gets the answer `gets k` from
`client.Get` and takes `elapsed k`. -/
def StateChangeConf.probe (conf : StateChangeConf) (gets : Nat → GetResult)
    (elapsed : Nat → Nat) (k : Nat) : ProbeCall :=
  { result := (conf.Refresh (gets k)).toProbeResult, elapsed := elapsed k }

/-! ## Sample data -/

/-- A probe that replays a list of statuses, then keeps reporting not-found; every call is
instantaneous. -/
def replay (statuses : List ObservedStatus) (k : Nat) : ProbeCall :=
  match statuses.get? k with
  | some s => { result := ProbeResult.Ok s, elapsed := 0 }
  | none => { result := ProbeResult.NotFound, elapsed := 0 }

/-- Sample helpers: the renderings of an identifier, a parser that knows the one sample ID, and
tag conversions that copy the map. -/
def sampleHelpers : Helpers :=
  { idString := fun i =>
      "Namespace (Subscription: " ++ i.SubscriptionId ++ " Resource Group Name: " ++
        i.ResourceGroupName ++ " Namespace Name: " ++ i.NamespaceName ++ ")"
    idID := fun i =>
      "/subscriptions/" ++ i.SubscriptionId ++ "/resourceGroups/" ++ i.ResourceGroupName ++
        "/providers/Microsoft.NotificationHubs/namespaces/" ++ i.NamespaceName
    ParseNamespaceID := fun s =>
      if s = "/subscriptions/sub/resourceGroups/rg/providers/Microsoft.NotificationHubs/namespaces/ns"
      then Except.ok { SubscriptionId := "sub", ResourceGroupName := "rg", NamespaceName := "ns" }
      else Except.error ("parsing " ++ s)
    Normalize := fun l => l
    ImportAsExistsError := fun name i => "A resource with the ID " ++ i ++ " already exists: " ++ name
    tagsExpand := fun t => some t
    tagsFlatten := fun t => t.getD [] }

/-- The sample identifier. -/
def sampleId : NamespaceId :=
  { SubscriptionId := "sub", ResourceGroupName := "rg", NamespaceName := "ns" }

/-- An answer of `client.Get` with the given status code, no model, and the given error. -/
def getAnswer (code : Int) (err : Option GoError) : GetResult :=
  { resp := { HttpResponse := some { StatusCode := code }, Model := none }, err := err }

/-- The rendering `ID()` of the sample identifier. -/
def sampleIdText : String :=
  "/subscriptions/sub/resourceGroups/rg/providers/Microsoft.NotificationHubs/namespaces/ns"

/-- Local state of an imported namespace before its first Read: the ID alone. -/
def importedState : ResourceData :=
  { id := sampleIdText, attrs := [], createTimeout := none }

/-- A remote namespace as `client.Get` returns it, model and properties present. -/
def remoteNamespace : GetResult :=
  { resp :=
      { HttpResponse := some { StatusCode := 200 }
        Model := some
          { Location := "westeurope"
            Sku := { Name := "Free" }
            Properties := some
              { NamespaceType := some "NotificationHub"
                Enabled := some true
                ServiceBusEndpoint := some "https://ns.servicebus.windows.net:443/" }
            Tags := some [("env", "test")] } }
    err := none }

/-- Local state holding the configuration of a namespace that is about to be created. -/
def plannedState : ResourceData :=
  { id := ""
    attrs :=
      [("name", Value.str "ns"), ("resource_group_name", Value.str "rg"),
        ("location", Value.str "westeurope"), ("sku_name", Value.str "Free"),
        ("enabled", Value.bool true), ("namespace_type", Value.str "NotificationHub"),
        ("tags", Value.tags [])]
    createTimeout := none }

/-- Answers under which Create reaches the wait and the wait ends with an error that does not
mention the status last observed. -/
def waitExpires : CreateAnswers :=
  { existing := getAnswer 404 (some "not found")
    createOrUpdate := none
    wait := { err := some "context deadline exceeded", lastState := "404" }
    read := remoteNamespace }

/-- A small policy: pending 404, target 200, interval 10, timeout 100. -/
def samplePolicy (hits : Nat) : PollPolicy :=
  { pendingStatuses := ["404"], targetStatuses := ["200"], minInterval := 10,
    requiredConsecutiveTargetHits := hits, timeout := 100 }

/-! ## Auxiliary lemmas -/

theorem embeds_self (m : String) : embeds m m :=
  List.infix_refl _

theorem embeds_append_right {m p : String} (x : String) (h : embeds m p) : embeds (m ++ x) p := by
  unfold embeds at *
  rw [String.data_append]
  exact h.trans (List.infix_append' [] m.data x.data)

theorem embeds_append_left {m p : String} (x : String) (h : embeds m p) : embeds (x ++ m) p := by
  unfold embeds at *
  rw [String.data_append]
  exact h.trans (List.suffix_append x.data m.data).isInfix

theorem digitChar_injOn : ∀ d, d < 10 → ∀ e, e < 10 → Nat.digitChar d = Nat.digitChar e → d = e := by
  decide

theorem digitsCore_suffix (fuel : Nat) : ∀ (n : Nat) (ds : List Char),
    ∃ pre, digitsCore fuel n ds = pre ++ ds ∧ (0 < fuel → pre ≠ []) := by
  induction fuel with
  | zero => intro n ds; exact ⟨[], rfl, fun h => absurd h (by decide)⟩
  | succ fuel ih =>
    intro n ds
    unfold digitsCore
    split
    · exact ⟨[Nat.digitChar (n % 10)], rfl, fun _ => by simp⟩
    · obtain ⟨pre, hpre, _⟩ := ih (n / 10) (Nat.digitChar (n % 10) :: ds)
      refine ⟨pre ++ [Nat.digitChar (n % 10)], ?_, fun _ => by simp⟩
      rw [hpre]; simp

theorem digitsCore_eq_200 (n : Nat) (h : digitsCore (n + 1) n [] = ['2', '0', '0']) : n = 200 := by
  unfold digitsCore at h
  split at h
  · simp at h
  · rename_i h1
    obtain ⟨m, rfl⟩ : ∃ m, n = m + 1 := ⟨n - 1, by omega⟩
    unfold digitsCore at h
    split at h
    · simp at h
    · rename_i h2
      obtain ⟨k, rfl⟩ : ∃ k, m = k + 1 := ⟨m - 1, by omega⟩
      unfold digitsCore at h
      split at h
      · rename_i h3
        simp only [List.cons.injEq, and_true] at h
        obtain ⟨e2, e1, e0⟩ := h
        have d2 := digitChar_injOn _ (Nat.mod_lt _ (by decide)) 2 (by decide) e2
        have d1 := digitChar_injOn _ (Nat.mod_lt _ (by decide)) 0 (by decide) e1
        have d0 := digitChar_injOn _ (Nat.mod_lt _ (by decide)) 0 (by decide) e0
        omega
      · rename_i h3
        obtain ⟨pre, hpre, hne⟩ := digitsCore_suffix k ((k + 1 + 1) / 10 / 10 / 10)
          [Nat.digitChar ((k + 1 + 1) / 10 / 10 % 10), Nat.digitChar ((k + 1 + 1) / 10 % 10),
            Nat.digitChar ((k + 1 + 1) % 10)]
        rw [hpre] at h
        have hlen := congrArg List.length h
        have hpos : pre ≠ [] := hne (by omega)
        have : 0 < pre.length := List.length_pos.mpr hpos
        simp only [List.length_append, List.length_cons, List.length_nil] at hlen
        omega

theorem Itoa_eq_200 (c : Int) : Itoa c = "200" ↔ c = 200 := by
  constructor
  · intro h
    cases c with
    | ofNat n =>
      have h2 : digitsCore (n + 1) n [] = ['2', '0', '0'] := congrArg String.data h
      rw [digitsCore_eq_200 n h2]; rfl
    | negSucc n =>
      have h2 := congrArg String.data h
      simp [Itoa] at h2
  · rintro rfl; decide

theorem WasNotFound_iff (resp : Option HttpResponse) :
    WasNotFound resp = true ↔ ∃ r, resp = some r ∧ r.StatusCode = 404 := by
  cases resp with
  | none => simp [WasNotFound]
  | some r => simp [WasNotFound]

/-! ## The status probe: verified properties -/

/-- Claim C3: when `client.Get` fails and its response is classified as not-found, the probe
returns no error, a nil result and the status "404"; that status is in the Pending set and not in
the Target set of the wait that Create configures. -/
theorem refresh_notFound_reports_pending_404 (hp : Helpers) (id : NamespaceId) (get : GetResult)
    (timeout : Nat) (herr : get.err ≠ none) (hnf : WasNotFound get.resp.HttpResponse = true) :
    (notificationHubNamespaceStateRefreshFunc hp id get).err = none ∧
    (notificationHubNamespaceStateRefreshFunc hp id get).result = none ∧
    (notificationHubNamespaceStateRefreshFunc hp id get).state = "404" ∧
    "404" ∈ (createStateConf hp id timeout).Pending ∧
    "404" ∉ (createStateConf hp id timeout).Target := by
  obtain ⟨r, hr, hcode⟩ := (WasNotFound_iff _).mp hnf
  obtain ⟨cause, hcause⟩ := Option.ne_none_iff_exists'.mp herr
  have h404 : Itoa 404 = "404" := by decide
  rw [hr] at hnf
  simp [notificationHubNamespaceStateRefreshFunc, hcause, hnf, hr, hcode, h404, createStateConf]

theorem refresh_notFound_reports_pending_404_witness :
    (notificationHubNamespaceStateRefreshFunc sampleHelpers sampleId
        (getAnswer 404 (some "not found"))).err = none ∧
    (notificationHubNamespaceStateRefreshFunc sampleHelpers sampleId
        (getAnswer 404 (some "not found"))).result = none ∧
    (notificationHubNamespaceStateRefreshFunc sampleHelpers sampleId
        (getAnswer 404 (some "not found"))).state = "404" ∧
    "404" ∈ (createStateConf sampleHelpers sampleId (30 * Minute)).Pending ∧
    "404" ∉ (createStateConf sampleHelpers sampleId (30 * Minute)).Target :=
  refresh_notFound_reports_pending_404 sampleHelpers sampleId (getAnswer 404 (some "not found"))
    (30 * Minute) (by decide) (by decide)

/-- Claim C4: the probe returns an error exactly when `client.Get` returned an error whose
response is not classified as not-found; the result is then nil, the status is the empty string,
and the message embeds the rendering of the identifier and the underlying cause. -/
theorem refresh_error_iff_other_failure (hp : Helpers) (id : NamespaceId) (get : GetResult) :
    ((notificationHubNamespaceStateRefreshFunc hp id get).err ≠ none ↔
      (get.err ≠ none ∧ WasNotFound get.resp.HttpResponse = false)) ∧
    (∀ cause, get.err = some cause → WasNotFound get.resp.HttpResponse = false →
      (notificationHubNamespaceStateRefreshFunc hp id get).result = none ∧
      (notificationHubNamespaceStateRefreshFunc hp id get).state = "" ∧
      ∃ msg, (notificationHubNamespaceStateRefreshFunc hp id get).err = some msg ∧
        embeds msg (hp.idString id) ∧ embeds msg cause) := by
  constructor
  · cases herr : get.err with
    | none => simp [notificationHubNamespaceStateRefreshFunc, herr]
    | some cause =>
      cases hnf : WasNotFound get.resp.HttpResponse <;>
        simp [notificationHubNamespaceStateRefreshFunc, herr, hnf]
  · intro cause herr hnf
    refine ⟨?_, ?_, "retrieving " ++ hp.idString id ++ ": " ++ cause, ?_, ?_, ?_⟩
    · simp [notificationHubNamespaceStateRefreshFunc, herr, hnf]
    · simp [notificationHubNamespaceStateRefreshFunc, herr, hnf]
    · simp [notificationHubNamespaceStateRefreshFunc, herr, hnf]
    · exact embeds_append_right _ (embeds_append_right _ (embeds_append_left _ (embeds_self _)))
    · exact embeds_append_left _ (embeds_self _)

theorem refresh_error_iff_other_failure_witness :
    (getAnswer 500 (some "server failure")).err = some "server failure" ∧
    WasNotFound (getAnswer 500 (some "server failure")).resp.HttpResponse = false ∧
    (notificationHubNamespaceStateRefreshFunc sampleHelpers sampleId
        (getAnswer 500 (some "server failure"))).result = none ∧
    (notificationHubNamespaceStateRefreshFunc sampleHelpers sampleId
        (getAnswer 500 (some "server failure"))).state = "" ∧
    ∃ msg, (notificationHubNamespaceStateRefreshFunc sampleHelpers sampleId
        (getAnswer 500 (some "server failure"))).err = some msg ∧
      embeds msg (sampleHelpers.idString sampleId) ∧ embeds msg "server failure" :=
  ⟨rfl, by decide,
    (refresh_error_iff_other_failure sampleHelpers sampleId
      (getAnswer 500 (some "server failure"))).2 "server failure" rfl (by decide)⟩

/-- Claim C7: when `client.Get` returns no error, the probe returns the response as its result, no
error, and as status the decimal rendering of the HTTP status code, or "dropped connection" when
there is no HTTP response; so the status is in Target exactly when a response with code 200 is
present, and "dropped connection" is in neither Pending nor Target. -/
theorem refresh_success_reports_status (hp : Helpers) (id : NamespaceId) (get : GetResult)
    (timeout : Nat) (hok : get.err = none) :
    (notificationHubNamespaceStateRefreshFunc hp id get).result = some get.resp ∧
    (notificationHubNamespaceStateRefreshFunc hp id get).err = none ∧
    (∀ r, get.resp.HttpResponse = some r →
      (notificationHubNamespaceStateRefreshFunc hp id get).state = Itoa r.StatusCode) ∧
    (get.resp.HttpResponse = none →
      (notificationHubNamespaceStateRefreshFunc hp id get).state = "dropped connection") ∧
    ((notificationHubNamespaceStateRefreshFunc hp id get).state ∈
        (createStateConf hp id timeout).Target ↔
      ∃ r, get.resp.HttpResponse = some r ∧ r.StatusCode = 200) ∧
    "dropped connection" ∉ (createStateConf hp id timeout).Pending ∧
    "dropped connection" ∉ (createStateConf hp id timeout).Target := by
  refine ⟨?_, ?_, ?_, ?_, ?_, ?_, ?_⟩
  · simp [notificationHubNamespaceStateRefreshFunc, hok]
  · simp [notificationHubNamespaceStateRefreshFunc, hok]
  · intro r hr; simp [notificationHubNamespaceStateRefreshFunc, hok, hr]
  · intro hr; simp [notificationHubNamespaceStateRefreshFunc, hok, hr]
  · cases hr : get.resp.HttpResponse with
    | none =>
      have hne : ("dropped connection" : String) ≠ "200" := by decide
      simp [notificationHubNamespaceStateRefreshFunc, hok, hr, createStateConf, hne]
    | some r =>
      simp [notificationHubNamespaceStateRefreshFunc, hok, hr, createStateConf, Itoa_eq_200]
  · simp [createStateConf]
  · simp [createStateConf]

theorem refresh_success_reports_status_witness :
    (getAnswer 200 none).err = none ∧
    (notificationHubNamespaceStateRefreshFunc sampleHelpers sampleId (getAnswer 200 none)).result
      = some (getAnswer 200 none).resp ∧
    (notificationHubNamespaceStateRefreshFunc sampleHelpers sampleId (getAnswer 200 none)).state
      = "200" :=
  ⟨rfl,
    (refresh_success_reports_status sampleHelpers sampleId (getAnswer 200 none) (30 * Minute)
      rfl).1,
    (refresh_success_reports_status sampleHelpers sampleId (getAnswer 200 none) (30 * Minute)
      rfl).2.2.1 ⟨200⟩ rfl⟩

/-! ## Read: verified properties -/

/-- Claim C8: for a stored ID that parses, when `client.Get` fails with a response classified as
not-found, Read sets the ID to the empty string, writes no attribute and returns no error; when
it fails otherwise, Read returns an error that embeds the identifier and leaves the local state
as it was. -/
theorem read_failure_marks_absent_or_reports (hp : Helpers) (get : GetResult) (d : ResourceData)
    (id : NamespaceId) (cause : GoError) (hparse : hp.ParseNamespaceID d.id = Except.ok id)
    (herr : get.err = some cause) :
    (WasNotFound get.resp.HttpResponse = true →
      (resourceNotificationHubNamespaceRead hp get d).d.id = "" ∧
      (resourceNotificationHubNamespaceRead hp get d).d.attrs = d.attrs ∧
      (resourceNotificationHubNamespaceRead hp get d).d.createTimeout = d.createTimeout ∧
      (resourceNotificationHubNamespaceRead hp get d).err = none) ∧
    (WasNotFound get.resp.HttpResponse = false →
      (resourceNotificationHubNamespaceRead hp get d).d = d ∧
      ∃ msg, (resourceNotificationHubNamespaceRead hp get d).err = some msg ∧
        embeds msg (hp.idString id)) := by
  constructor
  · intro hnf
    simp [resourceNotificationHubNamespaceRead, hparse, herr, hnf, ResourceData.SetId]
  · intro hnf
    refine ⟨?_, "retrieving " ++ hp.idString id ++ ": " ++ cause, ?_, ?_⟩
    · simp [resourceNotificationHubNamespaceRead, hparse, herr, hnf]
    · simp [resourceNotificationHubNamespaceRead, hparse, herr, hnf]
    · exact embeds_append_right _ (embeds_append_right _ (embeds_append_left _ (embeds_self _)))

theorem read_failure_marks_absent_or_reports_witness :
    sampleHelpers.ParseNamespaceID importedState.id = Except.ok sampleId ∧
    (getAnswer 404 (some "not found")).err = some "not found" ∧
    WasNotFound (getAnswer 404 (some "not found")).resp.HttpResponse = true ∧
    (resourceNotificationHubNamespaceRead sampleHelpers (getAnswer 404 (some "not found"))
      importedState).d.id = "" ∧
    (resourceNotificationHubNamespaceRead sampleHelpers (getAnswer 404 (some "not found"))
      importedState).d.attrs = importedState.attrs ∧
    (resourceNotificationHubNamespaceRead sampleHelpers (getAnswer 404 (some "not found"))
      importedState).d.createTimeout = importedState.createTimeout ∧
    (resourceNotificationHubNamespaceRead sampleHelpers (getAnswer 404 (some "not found"))
      importedState).err = none :=
  ⟨rfl, rfl, by decide,
    (read_failure_marks_absent_or_reports sampleHelpers (getAnswer 404 (some "not found"))
      importedState sampleId "not found" rfl rfl).1 (by decide)⟩

/-- Claim C9, evaluated on an imported namespace whose remote model and properties are present:
Read returns no error and writes name, resource_group_name, location, sku_name, enabled,
servicebus_endpoint and tags, but the schema attribute namespace_type stays unset although the
response carries the namespace type. -/
theorem read_leaves_namespace_type_unset :
    remoteNamespace.err = none ∧
    (remoteNamespace.resp.Model.bind (fun m => m.Properties)).bind (fun p => p.NamespaceType)
      = some "NotificationHub" ∧
    "namespace_type" ∈ resourceNotificationHubNamespaceSchema ∧
    (resourceNotificationHubNamespaceRead sampleHelpers remoteNamespace importedState).err
      = none ∧
    (resourceNotificationHubNamespaceRead sampleHelpers remoteNamespace
      importedState).d.attrs.lookup "namespace_type" = none ∧
    (resourceNotificationHubNamespaceSchema.filter (fun key =>
      ((resourceNotificationHubNamespaceRead sampleHelpers remoteNamespace
        importedState).d.attrs.lookup key).isSome))
      = ["name", "resource_group_name", "location", "sku_name", "enabled", "tags",
         "servicebus_endpoint"] := by
  decide

/-! ## Create: verified properties -/

/-- Claim C10: Create calls `client.CreateOrUpdate`, and starts the wait, only if the response of
the existence check is classified as not-found. When the check fails with a response that is not not-found, Create
returns the "checking for presence" error; when the check succeeds with such a response, Create
returns the import-as-exists error; in both cases the existence check is the only call made (no
mutating call, no wait) and the local state, its ID included, is left as it was. -/
theorem create_mutates_only_after_notFound (hp : Helpers) (subscriptionId : String)
    (env : CreateAnswers) (d : ResourceData) :
    ((∃ c ∈ (resourceNotificationHubNamespaceCreate hp subscriptionId env d).calls,
        c.isMutating = true ∨ c.isWait = true) →
      WasNotFound env.existing.resp.HttpResponse = true) ∧
    (∀ cause, env.existing.err = some cause →
      WasNotFound env.existing.resp.HttpResponse = false →
      (resourceNotificationHubNamespaceCreate hp subscriptionId env d).err =
        some ("checking for presence of existing " ++
          hp.idString ⟨subscriptionId, d.GetString "resource_group_name", d.GetString "name"⟩ ++
          ": " ++ cause) ∧
      (resourceNotificationHubNamespaceCreate hp subscriptionId env d).calls =
        [ApiCall.Get ⟨subscriptionId, d.GetString "resource_group_name", d.GetString "name"⟩] ∧
      (resourceNotificationHubNamespaceCreate hp subscriptionId env d).d = d) ∧
    (env.existing.err = none →
      WasNotFound env.existing.resp.HttpResponse = false →
      (resourceNotificationHubNamespaceCreate hp subscriptionId env d).err =
        some (hp.ImportAsExistsError "azurerm_notification_hub_namespace"
          (hp.idID ⟨subscriptionId, d.GetString "resource_group_name", d.GetString "name"⟩)) ∧
      (resourceNotificationHubNamespaceCreate hp subscriptionId env d).calls =
        [ApiCall.Get ⟨subscriptionId, d.GetString "resource_group_name", d.GetString "name"⟩] ∧
      (resourceNotificationHubNamespaceCreate hp subscriptionId env d).d = d) := by
  refine ⟨?_, ?_, ?_⟩
  · cases hnf : WasNotFound env.existing.resp.HttpResponse with
    | true => intro _; rfl
    | false =>
      rintro ⟨c, hc, hmut⟩
      cases herr : env.existing.err <;>
        simp [resourceNotificationHubNamespaceCreate, herr, hnf] at hc <;>
        subst hc <;> simp [ApiCall.isMutating, ApiCall.isWait] at hmut
  · intro cause herr hnf
    simp [resourceNotificationHubNamespaceCreate, herr, hnf]
  · intro herr hnf
    simp [resourceNotificationHubNamespaceCreate, herr, hnf]

theorem create_mutates_only_after_notFound_witness :
    (getAnswer 200 none).err = none ∧
    WasNotFound (getAnswer 200 none).resp.HttpResponse = false ∧
    (resourceNotificationHubNamespaceCreate sampleHelpers "sub"
      { waitExpires with existing := getAnswer 200 none } plannedState).err =
        some (sampleHelpers.ImportAsExistsError "azurerm_notification_hub_namespace"
          (sampleHelpers.idID ⟨"sub", plannedState.GetString "resource_group_name",
            plannedState.GetString "name"⟩)) ∧
    (resourceNotificationHubNamespaceCreate sampleHelpers "sub"
      { waitExpires with existing := getAnswer 200 none } plannedState).calls =
        [ApiCall.Get ⟨"sub", plannedState.GetString "resource_group_name",
          plannedState.GetString "name"⟩] ∧
    (resourceNotificationHubNamespaceCreate sampleHelpers "sub"
      { waitExpires with existing := getAnswer 200 none } plannedState).d = plannedState :=
  ⟨rfl, by decide,
    (create_mutates_only_after_notFound sampleHelpers "sub"
      { waitExpires with existing := getAnswer 200 none } plannedState).2.2 rfl (by decide)⟩

set_option maxRecDepth 200000 in
/-- Claim C5, refuted as stated: the wait ends with the error "context deadline exceeded" after
last observing the status "404"; Create returns the wrapped message, and that message does not
embed "404". -/
theorem create_wait_error_may_lack_last_status :
    waitExpires.wait.err = some "context deadline exceeded" ∧
    waitExpires.wait.lastState = "404" ∧
    (resourceNotificationHubNamespaceCreate sampleHelpers "sub" waitExpires plannedState).err =
      some ("waiting for Namespace (Subscription: sub Resource Group Name: rg Namespace Name: ns)" ++
        "s to finish replicating: context deadline exceeded") ∧
    ¬ embeds ("waiting for Namespace (Subscription: sub Resource Group Name: rg Namespace Name: ns)"
        ++ "s to finish replicating: context deadline exceeded") waitExpires.wait.lastState := by
  refine ⟨rfl, rfl, by decide, by decide⟩

/-- Claim C5, amended: whenever the wait inside Create ends with an error, Create returns the
error "waiting for (identifier)s to finish replicating: (wait error)", whose message embeds the
rendering of the namespace identifier and the text of the wait error. The message is the same
whatever status was last observed, and it embeds that status whenever the text of the wait error
contains it. The wait is the last call made, so neither SetId nor the follow-up Read is performed
and the local state, its ID included, is left as it was. -/
theorem create_wait_error_is_wrapped (hp : Helpers) (subscriptionId : String)
    (env : CreateAnswers) (d : ResourceData) (cause : GoError)
    (hnf : WasNotFound env.existing.resp.HttpResponse = true)
    (hcreated : env.createOrUpdate = none) (hwait : env.wait.err = some cause) :
    (∃ msg, (resourceNotificationHubNamespaceCreate hp subscriptionId env d).err = some msg ∧
      msg = "waiting for " ++
        hp.idString ⟨subscriptionId, d.GetString "resource_group_name", d.GetString "name"⟩ ++
        "s to finish replicating: " ++ cause ∧
      embeds msg
        (hp.idString ⟨subscriptionId, d.GetString "resource_group_name", d.GetString "name"⟩) ∧
      embeds msg cause ∧ (embeds cause env.wait.lastState → embeds msg env.wait.lastState)) ∧
    (∀ status : String,
      (resourceNotificationHubNamespaceCreate hp subscriptionId
        { env with wait := { env.wait with lastState := status } } d).err =
      (resourceNotificationHubNamespaceCreate hp subscriptionId env d).err) ∧
    (∃ id parameters conf, (resourceNotificationHubNamespaceCreate hp subscriptionId env d).calls =
      [ApiCall.Get id, ApiCall.CreateOrUpdate id parameters, ApiCall.WaitForStateContext conf]) ∧
    (resourceNotificationHubNamespaceCreate hp subscriptionId env d).d = d := by
  have hmsg : ∀ (a b c : String),
      embeds (a ++ b ++ c ++ cause) b ∧ embeds (a ++ b ++ c ++ cause) cause :=
    fun a b c =>
      ⟨embeds_append_right _ (embeds_append_right _ (embeds_append_left _ (embeds_self _))),
        embeds_append_left _ (embeds_self _)⟩
  refine ⟨⟨"waiting for " ++ hp.idString
      ⟨subscriptionId, d.GetString "resource_group_name", d.GetString "name"⟩ ++
      "s to finish replicating: " ++ cause, ?_, rfl, (hmsg _ _ _).1, (hmsg _ _ _).2, ?_⟩,
    ?_, ?_, ?_⟩
  · cases herr : env.existing.err <;>
      simp [resourceNotificationHubNamespaceCreate, herr, hnf, hcreated, hwait]
  · intro h
    unfold embeds at *
    exact h.trans (hmsg _ _ _).2
  · intro status
    cases herr : env.existing.err <;>
      simp [resourceNotificationHubNamespaceCreate, herr, hnf, hcreated, hwait]
  · cases herr : env.existing.err <;>
      simp [resourceNotificationHubNamespaceCreate, herr, hnf, hcreated, hwait]
  · cases herr : env.existing.err <;>
      simp [resourceNotificationHubNamespaceCreate, herr, hnf, hcreated, hwait]

theorem create_wait_error_is_wrapped_witness :
    WasNotFound waitExpires.existing.resp.HttpResponse = true ∧
    waitExpires.createOrUpdate = none ∧
    waitExpires.wait.err = some "context deadline exceeded" ∧
    (∀ status : String,
      (resourceNotificationHubNamespaceCreate sampleHelpers "sub"
        { waitExpires with wait := { waitExpires.wait with lastState := status } }
        plannedState).err =
      (resourceNotificationHubNamespaceCreate sampleHelpers "sub" waitExpires plannedState).err) ∧
    (resourceNotificationHubNamespaceCreate sampleHelpers "sub" waitExpires plannedState).d =
      plannedState :=
  ⟨by decide, rfl, rfl,
    (create_wait_error_is_wrapped sampleHelpers "sub" waitExpires plannedState
      "context deadline exceeded" (by decide) rfl rfl).2.1,
    (create_wait_error_is_wrapped sampleHelpers "sub" waitExpires plannedState
      "context deadline exceeded" (by decide) rfl rfl).2.2.2⟩

/-- Claim C6: the policy Create builds, whatever timeout `d.Timeout` yields, has the pending set
{"404"} and the target set {"200"}, which are disjoint, requires at least one (namely ten)
consecutive target hits, and has a minimum interval of fifteen seconds, which is positive and
smaller than the default create timeout of thirty minutes declared by the resource. -/
theorem create_policy_invariants (hp : Helpers) (id : NamespaceId) (timeout : Nat) :
    (createStateConf hp id timeout).toPollPolicy.pendingStatuses = ["404"] ∧
    (createStateConf hp id timeout).toPollPolicy.targetStatuses = ["200"] ∧
    (∀ s, s ∈ (createStateConf hp id timeout).toPollPolicy.pendingStatuses →
      s ∉ (createStateConf hp id timeout).toPollPolicy.targetStatuses) ∧
    (createStateConf hp id timeout).toPollPolicy.requiredConsecutiveTargetHits = 10 ∧
    1 ≤ (createStateConf hp id timeout).toPollPolicy.requiredConsecutiveTargetHits ∧
    (createStateConf hp id timeout).toPollPolicy.minInterval = 15 * Second ∧
    0 < (createStateConf hp id timeout).toPollPolicy.minInterval ∧
    resourceNotificationHubNamespaceTimeouts.Create = 30 * Minute ∧
    (createStateConf hp id timeout).toPollPolicy.minInterval <
      resourceNotificationHubNamespaceTimeouts.Create := by
  refine ⟨rfl, rfl, ?_, rfl, ?_, rfl, ?_, rfl, ?_⟩
  · intro s hs
    simp only [createStateConf, StateChangeConf.toPollPolicy, List.mem_singleton] at hs ⊢
    subst hs; decide
  · show 1 ≤ 10
    decide
  · show 0 < 15 * Second
    decide
  · show 15 * Second < 30 * Minute
    decide

/-! ## The reconciliation loop: verified properties -/

theorem classify_stop_succeeded {policy : PollPolicy} {hits : Nat} {r : ProbeResult}
    {obs : ObservedStatus}
    (h : classify policy hits r = Verdict.stop (ReconciliationOutcome.Succeeded obs)) :
    r = ProbeResult.Ok obs ∧ obs ∈ policy.targetStatuses ∧
      policy.requiredConsecutiveTargetHits ≤ hits + 1 := by
  cases r with
  | NotFound => simp [classify] at h
  | Err cause => simp [classify] at h
  | Ok status =>
    by_cases ht : status ∈ policy.targetStatuses
    · by_cases hn : policy.requiredConsecutiveTargetHits ≤ hits + 1
      · simp only [classify, ht, hn, if_true, Verdict.stop.injEq,
          ReconciliationOutcome.Succeeded.injEq] at h
        subst h
        exact ⟨rfl, ht, hn⟩
      · simp [classify, ht, hn] at h
    · by_cases hp : status ∈ policy.pendingStatuses <;> simp [classify, ht, hp] at h

theorem classify_again {policy : PollPolicy} {hits next : Nat} {r : ProbeResult}
    (h : classify policy hits r = Verdict.again next) :
    next = 0 ∨ (next = hits + 1 ∧ ∃ s, r = ProbeResult.Ok s ∧ s ∈ policy.targetStatuses) := by
  cases r with
  | NotFound => simp [classify] at h; exact Or.inl h.symm
  | Err cause => simp [classify] at h
  | Ok status =>
    by_cases ht : status ∈ policy.targetStatuses
    · by_cases hn : policy.requiredConsecutiveTargetHits ≤ hits + 1
      · simp [classify, ht, hn] at h
      · simp only [classify, ht, hn, if_true, if_false, Verdict.again.injEq] at h
        exact Or.inr ⟨h.symm, status, rfl, ht⟩
    · by_cases hp : status ∈ policy.pendingStatuses
      · simp only [classify, ht, hp, if_true, if_false, Verdict.again.injEq] at h
        exact Or.inl h.symm
      · simp [classify, ht, hp] at h

theorem reconcileLoop_succeeded (policy : PollPolicy) (probe : Nat → ProbeCall)
    (cancelAt : Option Nat) (deadline : Nat) (obs : ObservedStatus) (n : Nat) :
    ∀ (fuel now hits k : Nat), hits ≤ k →
      (∀ i, k - hits ≤ i → i < k →
        ∃ s, (probe i).result = ProbeResult.Ok s ∧ s ∈ policy.targetStatuses) →
      reconcileLoop policy probe cancelAt deadline fuel now hits k =
        some { outcome := ReconciliationOutcome.Succeeded obs, probes := n } →
      policy.requiredConsecutiveTargetHits ≤ n ∧ 0 < n ∧
      (probe (n - 1)).result = ProbeResult.Ok obs ∧
      (∀ i, n - policy.requiredConsecutiveTargetHits ≤ i → i < n →
        ∃ s, (probe i).result = ProbeResult.Ok s ∧ s ∈ policy.targetStatuses) := by
  intro fuel
  induction fuel with
  | zero => intro now hits k _ _ h; simp [reconcileLoop] at h
  | succ fuel ih =>
    intro now hits k hk hinv h
    rw [reconcileLoop] at h
    by_cases hdead : deadline ≤ now
    · simp [hdead] at h
    · rw [if_neg hdead] at h
      cases hc : classify policy hits (probe k).result with
      | stop outcome =>
        rw [hc] at h
        simp only [Option.some.injEq, Reconciliation.mk.injEq] at h
        obtain ⟨ho, hn⟩ := h
        subst ho
        subst hn
        obtain ⟨hr, hmem, hreq⟩ := classify_stop_succeeded hc
        refine ⟨by omega, by omega, by simpa using hr, ?_⟩
        intro i hlo hhi
        by_cases hik : i = k
        · subst hik; exact ⟨obs, hr, hmem⟩
        · exact hinv i (by omega) (by omega)
      | again next =>
        rw [hc] at h
        simp only at h
        by_cases hcancel :
            cancelledBefore cancelAt (now + (probe k).elapsed + policy.minInterval) = true
        · simp [hcancel] at h
        · rw [if_neg hcancel] at h
          refine ih _ next (k + 1) ?_ ?_ h
          · rcases classify_again hc with h0 | ⟨h1, _⟩ <;> omega
          · intro i hlo hhi
            rcases classify_again hc with h0 | ⟨h1, s, hs, hmem⟩
            · omega
            · by_cases hik : i = k
              · subst hik; exact ⟨s, hs, hmem⟩
              · exact hinv i (by omega) (by omega)

theorem reconcileLoop_pending_times_out (policy : PollPolicy) (probe : Nat → ProbeCall)
    (deadline : Nat) (hpos : 0 < policy.minInterval)
    (hpend : ∀ k hits, classify policy hits (probe k).result = Verdict.again 0) :
    ∀ (fuel now hits k : Nat), deadline ≤ now + fuel →
      ∃ n, reconcileLoop policy probe none deadline (fuel + 1) now hits k =
        some { outcome := ReconciliationOutcome.TimedOut, probes := n } := by
  intro fuel
  induction fuel with
  | zero =>
    intro now hits k h
    exact ⟨k, by simp [reconcileLoop, (by omega : deadline ≤ now)]⟩
  | succ fuel ih =>
    intro now hits k h
    by_cases hdead : deadline ≤ now
    · exact ⟨k, by rw [reconcileLoop]; simp [hdead]⟩
    · obtain ⟨n, hn⟩ := ih (now + (probe k).elapsed + policy.minInterval) 0 (k + 1) (by omega)
      refine ⟨n, ?_⟩
      rw [reconcileLoop]
      simp only [hdead, if_false, hpend k hits, cancelledBefore]
      simpa using hn

theorem reconcileLoop_terminates (policy : PollPolicy) (probe : Nat → ProbeCall)
    (cancelAt : Option Nat) (deadline : Nat) (hpos : 0 < policy.minInterval) :
    ∀ (fuel now hits k : Nat), deadline ≤ now + fuel →
      ∃ r, reconcileLoop policy probe cancelAt deadline (fuel + 1) now hits k = some r := by
  intro fuel
  induction fuel with
  | zero =>
    intro now hits k h
    exact ⟨{ outcome := ReconciliationOutcome.TimedOut, probes := k },
      by simp [reconcileLoop, (by omega : deadline ≤ now)]⟩
  | succ fuel ih =>
    intro now hits k h
    rw [reconcileLoop]
    by_cases hdead : deadline ≤ now
    · exact ⟨{ outcome := ReconciliationOutcome.TimedOut, probes := k }, by simp [hdead]⟩
    · simp only [hdead, if_false]
      cases classify policy hits (probe k).result with
      | stop outcome => exact ⟨_, rfl⟩
      | again next =>
        simp only
        split_ifs
        · exact ⟨_, rfl⟩
        · exact ih _ next (k + 1) (by omega)

/-- With a positive minimum interval `reconcile` always returns an outcome. -/
theorem reconcile_terminates (policy : PollPolicy) (probe : Nat → ProbeCall)
    (cancelAt : Option Nat) (start : Nat) (hpos : 0 < policy.minInterval) :
    ∃ r, reconcile policy probe cancelAt start = some r :=
  reconcileLoop_terminates policy probe cancelAt _ hpos _ _ _ _ (Nat.le_refl _)

/-- Claim C1: for every policy that requires N ≥ 1 consecutive target hits and every sequence of
probe observations, if `reconcile` returns Succeeded after n probes then n ≥ N, the N most recent
observations (numbers n - N to n - 1) were all target statuses, with no pending, not-found or
other observation among them, and the final observation is the last of them. -/
theorem reconcile_succeeds_only_after_required_hits (policy : PollPolicy)
    (probe : Nat → ProbeCall) (cancelAt : Option Nat) (start : Nat) (obs : ObservedStatus)
    (n : Nat) (hN : 1 ≤ policy.requiredConsecutiveTargetHits)
    (h : reconcile policy probe cancelAt start =
      some { outcome := ReconciliationOutcome.Succeeded obs, probes := n }) :
    policy.requiredConsecutiveTargetHits ≤ n ∧
    (∀ i, n - policy.requiredConsecutiveTargetHits ≤ i → i < n →
      ∃ s, (probe i).result = ProbeResult.Ok s ∧ s ∈ policy.targetStatuses) ∧
    (probe (n - 1)).result = ProbeResult.Ok obs ∧
    (∃ s, (probe (n - policy.requiredConsecutiveTargetHits)).result = ProbeResult.Ok s ∧
      s ∈ policy.targetStatuses) := by
  obtain ⟨hle, _, hlast, hall⟩ :=
    reconcileLoop_succeeded policy probe cancelAt _ obs n _ start 0 0 (Nat.le_refl 0)
      (fun i _ hi => absurd hi (Nat.not_lt_zero i)) h
  exact ⟨hle, hall, hlast, hall _ (Nat.le_refl _) (by omega)⟩

theorem reconcile_succeeds_only_after_required_hits_witness :
    1 ≤ (samplePolicy 2).requiredConsecutiveTargetHits ∧
    reconcile (samplePolicy 2) (replay ["200", "404", "200", "200"]) none 0 =
      some { outcome := ReconciliationOutcome.Succeeded "200", probes := 4 } ∧
    (samplePolicy 2).requiredConsecutiveTargetHits ≤ 4 ∧
    (∀ i, 4 - (samplePolicy 2).requiredConsecutiveTargetHits ≤ i → i < 4 →
      ∃ s, (replay ["200", "404", "200", "200"] i).result = ProbeResult.Ok s ∧
        s ∈ (samplePolicy 2).targetStatuses) :=
  ⟨by decide, by decide,
    (reconcile_succeeds_only_after_required_hits (samplePolicy 2)
      (replay ["200", "404", "200", "200"]) none 0 "200" 4 (by decide) (by decide)).1,
    (reconcile_succeeds_only_after_required_hits (samplePolicy 2)
      (replay ["200", "404", "200", "200"]) none 0 "200" 4 (by decide) (by decide)).2.1⟩

theorem reconcileLoop_pending_ends (policy : PollPolicy) (probe : Nat → ProbeCall)
    (cancelAt : Option Nat) (deadline : Nat) (hpos : 0 < policy.minInterval)
    (hpend : ∀ k hits, classify policy hits (probe k).result = Verdict.again 0) :
    ∀ (fuel now hits k : Nat), deadline ≤ now + fuel →
      ∃ n, reconcileLoop policy probe cancelAt deadline (fuel + 1) now hits k =
          some { outcome := ReconciliationOutcome.TimedOut, probes := n } ∨
        (cancelAt ≠ none ∧
          reconcileLoop policy probe cancelAt deadline (fuel + 1) now hits k =
            some { outcome := ReconciliationOutcome.Failed FailureCause.Cancelled,
                   probes := n }) := by
  intro fuel
  induction fuel with
  | zero =>
    intro now hits k h
    exact ⟨k, Or.inl (by simp [reconcileLoop, (by omega : deadline ≤ now)])⟩
  | succ fuel ih =>
    intro now hits k h
    by_cases hdead : deadline ≤ now
    · exact ⟨k, Or.inl (by rw [reconcileLoop]; simp [hdead])⟩
    · by_cases hcancel :
          cancelledBefore cancelAt (now + (probe k).elapsed + policy.minInterval) = true
      · refine ⟨k + 1, Or.inr ⟨?_, ?_⟩⟩
        · intro hnone
          rw [hnone] at hcancel
          simp [cancelledBefore] at hcancel
        · rw [reconcileLoop]
          simp only [hdead, if_false, hpend k hits, hcancel, if_true]
      · obtain ⟨n, hn⟩ := ih (now + (probe k).elapsed + policy.minInterval) 0 (k + 1) (by omega)
        refine ⟨n, ?_⟩
        rw [reconcileLoop]
        simp only [hdead, if_false, hpend k hits]
        rw [if_neg hcancel]
        exact hn

/-- Claim C2, refuted as stated: every call of `client.Get` fails as not-found, the wait of Create
is entered at time 1 with a timeout of sixty seconds, and the cancellation signal fires at sixty
seconds, during the fourth sleep; `reconcile` returns Failed with the cause Cancelled, not
TimedOut. -/
theorem reconcile_notFound_cancelled_fails :
    ((getAnswer 404 (some "not found")).err ≠ none ∧
      WasNotFound (getAnswer 404 (some "not found")).resp.HttpResponse = true) ∧
    reconcile (createStateConf sampleHelpers sampleId (60 * Second)).toPollPolicy
      ((createStateConf sampleHelpers sampleId (60 * Second)).probe
        (fun _ => getAnswer 404 (some "not found")) (fun _ => 0)) (some (60 * Second)) 1 =
      some { outcome := ReconciliationOutcome.Failed FailureCause.Cancelled, probes := 4 } := by
  refine ⟨⟨by decide, by decide⟩, by decide⟩

/-- Claim C2, amended: for every timeout T, start time, probe durations and cancellation signal, if
every call of `client.Get` fails with a response classified as not-found, then every call of the
probe reports a nil result with status "404" and no error, each such observation is treated as
pending (both as a nil result and by its status "404"), and `reconcile` under the policy of
Create returns TimedOut, or Failed with the cause Cancelled when a cancellation signal exists and
fires before a sleep ends; it returns no other failure, and without a cancellation signal it
returns TimedOut. -/
theorem reconcile_notFound_times_out_or_cancelled (hp : Helpers) (id : NamespaceId)
    (T start : Nat) (gets : Nat → GetResult) (elapsed : Nat → Nat) (cancelAt : Option Nat)
    (hnf : ∀ k, (gets k).err ≠ none ∧ WasNotFound (gets k).resp.HttpResponse = true) :
    (∀ k, (createStateConf hp id T).Refresh (gets k) =
      { result := none, state := "404", err := none }) ∧
    (∀ k hits, classify (createStateConf hp id T).toPollPolicy hits
      ((createStateConf hp id T).probe gets elapsed k).result = Verdict.again 0) ∧
    (∀ hits, classify (createStateConf hp id T).toPollPolicy hits (ProbeResult.Ok "404") =
      Verdict.again 0) ∧
    (∃ n, reconcile (createStateConf hp id T).toPollPolicy
          ((createStateConf hp id T).probe gets elapsed) cancelAt start =
            some { outcome := ReconciliationOutcome.TimedOut, probes := n } ∨
        (cancelAt ≠ none ∧
          reconcile (createStateConf hp id T).toPollPolicy
            ((createStateConf hp id T).probe gets elapsed) cancelAt start =
              some { outcome := ReconciliationOutcome.Failed FailureCause.Cancelled,
                     probes := n })) ∧
    (∃ n, reconcile (createStateConf hp id T).toPollPolicy
      ((createStateConf hp id T).probe gets elapsed) none start =
        some { outcome := ReconciliationOutcome.TimedOut, probes := n }) := by
  have hrefresh : ∀ k, (createStateConf hp id T).Refresh (gets k) =
      { result := none, state := "404", err := none } := by
    intro k
    obtain ⟨herr, hk⟩ := hnf k
    obtain ⟨r, hr, hcode⟩ := (WasNotFound_iff _).mp hk
    obtain ⟨cause, hcause⟩ := Option.ne_none_iff_exists'.mp herr
    have h404 : Itoa 404 = "404" := by decide
    rw [hr] at hk
    simp [createStateConf, notificationHubNamespaceStateRefreshFunc, hcause, hk, hr, hcode, h404]
  have hpend : ∀ k hits, classify (createStateConf hp id T).toPollPolicy hits
      ((createStateConf hp id T).probe gets elapsed k).result = Verdict.again 0 := by
    intro k hits
    simp [StateChangeConf.probe, hrefresh k, RefreshResult.toProbeResult, classify]
  refine ⟨hrefresh, hpend, fun hits => by simp [classify, createStateConf,
    StateChangeConf.toPollPolicy], ?_, ?_⟩
  · exact reconcileLoop_pending_ends _ _ cancelAt _
      (show 0 < 15 * Second by decide) hpend _ _ _ _ (Nat.le_refl _)
  · exact reconcileLoop_pending_times_out _ _ _
      (show 0 < 15 * Second by decide) hpend _ _ _ _ (Nat.le_refl _)

theorem reconcile_notFound_times_out_or_cancelled_witness :
    ((getAnswer 404 (some "not found")).err ≠ none ∧
      WasNotFound (getAnswer 404 (some "not found")).resp.HttpResponse = true) ∧
    reconcile (createStateConf sampleHelpers sampleId (60 * Second)).toPollPolicy
      ((createStateConf sampleHelpers sampleId (60 * Second)).probe
        (fun _ => getAnswer 404 (some "not found")) (fun _ => 0)) none 0 =
      some { outcome := ReconciliationOutcome.TimedOut, probes := 4 } ∧
    ∃ n, reconcile (createStateConf sampleHelpers sampleId (60 * Second)).toPollPolicy
      ((createStateConf sampleHelpers sampleId (60 * Second)).probe
        (fun _ => getAnswer 404 (some "not found")) (fun _ => 0)) none 0 =
      some { outcome := ReconciliationOutcome.TimedOut, probes := n } :=
  ⟨⟨by decide, by decide⟩, by decide,
    (reconcile_notFound_times_out_or_cancelled sampleHelpers sampleId (60 * Second) 0
      (fun _ => getAnswer 404 (some "not found")) (fun _ => 0) none
      (fun _ => ⟨(by decide : (getAnswer 404 (some "not found")).err ≠ none),
        (by decide : WasNotFound (getAnswer 404 (some "not found")).resp.HttpResponse = true)⟩)).2.2.2.2⟩

end NotificationHub
